import Mathlib

/-!
Verification of the RunOnceDuration admission plugin
(`pkg/quota/admission/runonceduration/admission.go`).

The plugin bounds the lifetime of non-restarting pods: on admission of a
pod whose restart policy is `Never` or `OnFailure`, it sets the pod's
`ActiveDeadlineSeconds` either from a per-namespace override annotation
or, failing that, from a cluster-wide configured default.

The embedding below is a direct shallow translation of the Go source:
pointer-typed optional fields become `Option`, the mutation of the pod
through its pointer becomes explicit state passing, `error` results
become `Except String` / `Option AdmitError`, and the project cache is
an explicit function argument.
-/

namespace RunOnceDuration

/-- Pod restart policy (`kapi.RestartPolicyAlways/OnFailure/Never`). -/
inductive RestartPolicy
  | always
  | onFailure
  | never
  deriving DecidableEq, Repr

/-- The part of `kapi.PodSpec` read or written by the plugin:
`RestartPolicy` and the optional pointer field `ActiveDeadlineSeconds`
(`*int64`, modelled as `Option Int`). -/
structure PodSpec where
  restartPolicy : RestartPolicy
  activeDeadlineSeconds : Option Int
  deriving DecidableEq, Repr

/-- A pod (`*kapi.Pod`), carrying just the spec fields the plugin touches. -/
structure Pod where
  spec : PodSpec
  deriving DecidableEq, Repr

/-- Namespace metadata as returned by the project cache: a name and an
optional (possibly nil) map of string annotations, modelled as an
association list. -/
structure NamespaceMeta where
  name : String
  annotations : Option (List (String × String))
  deriving DecidableEq, Repr

/-- `api.RunOnceDurationConfig`: the optional cluster-wide default
(`ActiveDeadlineSecondsOverride *int64`). -/
structure RunOnceDurationConfig where
  activeDeadlineSecondsOverride : Option Int
  deriving DecidableEq, Repr

/-- The admission request payload, `attributes.GetObject()`: either a pod
(the `*kapi.Pod` type assertion succeeds) or some other object, kept as an
opaque description used in the error message. -/
inductive AdmissionObject
  | pod (p : Pod)
  | other (desc : String)
  deriving DecidableEq, Repr

/-- The fields of `admission.Attributes` the plugin reads:
`GetResource()`, `GetSubresource()`, `GetNamespace()`, `GetObject()`. -/
structure Attributes where
  resource : String
  subresource : String
  namespaceName : String
  object : AdmissionObject
  deriving DecidableEq, Repr

/-- The result of `admission.NewForbidden(attributes, err)`: a rejection
carrying the wrapped error's message. -/
inductive AdmitError
  | forbidden (msg : String)
  deriving DecidableEq, Repr

/-- The project cache collaborator: `GetNamespace(name)` returns the
namespace metadata or a lookup error. -/
abbrev ProjectCache := String → Except String NamespaceMeta

/-- Modelled from the spec: the well-known per-namespace override
annotation key, `api.ActiveDeadlineSecondsOverrideAnnotation`, defined in
the plugin's `api` package which is not part of the provided sources.
Its concrete value is immaterial to every claim. -/
def ActiveDeadlineSecondsOverrideAnnotation : String :=
  "openshift.io/active-deadline-seconds-override"

/-- Value of a list of decimal digit characters; `none` if the list is
empty or contains a non-digit.  This is the digit loop of Go's
`strconv.ParseUint` for base 10. -/
def digitsVal : List Char → Option Nat
  | [] => none
  | cs =>
    if cs.all Char.isDigit then
      some (cs.foldl (fun n c => n * 10 + (c.toNat - '0'.toNat)) 0)
    else
      none

/-- Go's `strconv.ParseInt(s, 10, 64)`: an optional leading sign followed
by one or more decimal digits, value range-checked against int64.  On
failure it returns the usual `strconv` error string. -/
def parseInt64 (s : String) : Except String Int :=
  let sd : Bool × List Char :=
    match s.toList with
    | '+' :: r => (false, r)
    | '-' :: r => (true, r)
    | r => (false, r)
  match digitsVal sd.2 with
  | none => .error ("strconv.ParseInt: parsing \"" ++ s ++ "\": invalid syntax")
  | some n =>
    if sd.1 then
      if n > 2 ^ 63 then
        .error ("strconv.ParseInt: parsing \"" ++ s ++ "\": value out of range")
      else
        .ok (-(n : Int))
    else
      if n ≥ 2 ^ 63 then
        .error ("strconv.ParseInt: parsing \"" ++ s ++ "\": value out of range")
      else
        .ok (n : Int)

/-- Write `pod.Spec.ActiveDeadlineSeconds = v` (a pointer assignment in
the source, hence an `Option Int`). -/
def setDeadline (pod : Pod) (v : Option Int) : Pod :=
  { pod with spec := { pod.spec with activeDeadlineSeconds := v } }

/-- `(a *runOnceDuration) applyProjectAnnotationOverride(namespace, pod)`:
looks the namespace up in the project cache, and if it carries the
override annotation with a parseable value, writes that value to the
pod's deadline.  Returns `(applied, pod)` on success, the error message
otherwise; the possibly-mutated pod is threaded explicitly. -/
def applyProjectAnnotationOverride (cache : ProjectCache)
    (namespaceName : String) (pod : Pod) : Except String (Bool × Pod) :=
  match cache namespaceName with
  | .error err => .error ("error looking up pod namespace: " ++ err)
  | .ok ns =>
    match ns.annotations with
    | none => .ok (false, pod)
    | some anns =>
      match anns.lookup ActiveDeadlineSecondsOverrideAnnotation with
      | none => .ok (false, pod)
      | some override =>
        match parseInt64 override with
        | .error err =>
          .error ("cannot parse the ActiveDeadlineSeconds override (" ++
            override ++ ") for project " ++ ns.name ++ ": " ++ err)
        | .ok overrideInt64 =>
          .ok (true, setDeadline pod (some overrideInt64))

/-- `(a *runOnceDuration) Admit(attributes)`: the admission decision.
Returns the admission error (`none` = admitted) together with the request
object after any mutation.  `config = none` models a nil plugin config. -/
def Admit (cache : ProjectCache) (config : Option RunOnceDurationConfig)
    (attributes : Attributes) : Option AdmitError × AdmissionObject :=
  match config with
  | none => (none, attributes.object)
  | some config =>
    if attributes.resource ≠ "pods" ∨ attributes.subresource.length > 0 then
      (none, attributes.object)
    else
      match attributes.object with
      | .other desc =>
        (some (.forbidden ("unexpected object: " ++ desc)), .other desc)
      | .pod pod =>
        match pod.spec.restartPolicy with
        | .never | .onFailure =>
          match applyProjectAnnotationOverride cache
              attributes.namespaceName pod with
          | .error err => (some (.forbidden err), .pod pod)
          | .ok (applied, pod) =>
            if !applied && config.activeDeadlineSecondsOverride.isSome then
              (none, .pod (setDeadline pod config.activeDeadlineSecondsOverride))
            else
              (none, .pod pod)
        | _ => (none, .pod pod)

/-- The pod-independent part of the resolver: the override value the
namespace yields (`none` = no override configured), or the error
message.  Used to characterise `applyProjectAnnotationOverride`. -/
def resolveOverride (cache : ProjectCache) (namespaceName : String) :
    Except String (Option Int) :=
  match cache namespaceName with
  | .error err => .error ("error looking up pod namespace: " ++ err)
  | .ok ns =>
    match ns.annotations with
    | none => .ok none
    | some anns =>
      match anns.lookup ActiveDeadlineSecondsOverrideAnnotation with
      | none => .ok none
      | some override =>
        match parseInt64 override with
        | .error err =>
          .error ("cannot parse the ActiveDeadlineSeconds override (" ++
            override ++ ") for project " ++ ns.name ++ ": " ++ err)
        | .ok overrideInt64 => .ok (some overrideInt64)

theorem setDeadline_setDeadline (pod : Pod) (x y : Option Int) :
    setDeadline (setDeadline pod x) y = setDeadline pod y := rfl

theorem restartPolicy_setDeadline (pod : Pod) (x : Option Int) :
    (setDeadline pod x).spec.restartPolicy = pod.spec.restartPolicy := rfl

/-- The resolver only reads the cache through `resolveOverride`; the pod
is threaded through unchanged or gets the resolved value written. -/
theorem applyProjectAnnotationOverride_eq (cache : ProjectCache)
    (namespaceName : String) (pod : Pod) :
    applyProjectAnnotationOverride cache namespaceName pod =
      match resolveOverride cache namespaceName with
      | .error e => .error e
      | .ok none => .ok (false, pod)
      | .ok (some v) => .ok (true, setDeadline pod (some v)) := by
  rcases hc : cache namespaceName with e | ns
  · simp [applyProjectAnnotationOverride, resolveOverride, hc]
  · rcases ha : ns.annotations with _ | anns
    · simp [applyProjectAnnotationOverride, resolveOverride, hc, ha]
    · rcases hk : anns.lookup ActiveDeadlineSecondsOverrideAnnotation
        with _ | s
      · simp [applyProjectAnnotationOverride, resolveOverride, hc, ha, hk]
      · rcases hp : parseInt64 s with e | v
        · simp [applyProjectAnnotationOverride, resolveOverride,
            hc, ha, hk, hp]
        · simp [applyProjectAnnotationOverride, resolveOverride,
            hc, ha, hk, hp]

/-- For an applicable request (pod resource, no subresource, pod payload,
run-once restart policy), the decision is the precedence ladder over the
resolved override and the configured default. -/
theorem admit_pod_eq (cache : ProjectCache) (cfg : RunOnceDurationConfig)
    (attributes : Attributes) (pod : Pod)
    (hres : attributes.resource = "pods")
    (hsub : attributes.subresource = "")
    (hobj : attributes.object = .pod pod)
    (hpol : pod.spec.restartPolicy = .never ∨
      pod.spec.restartPolicy = .onFailure) :
    Admit cache (some cfg) attributes =
      match resolveOverride cache attributes.namespaceName with
      | .error e => (some (.forbidden e), .pod pod)
      | .ok (some v) => (none, .pod (setDeadline pod (some v)))
      | .ok none =>
        match cfg.activeDeadlineSecondsOverride with
        | some d => (none, .pod (setDeadline pod (some d)))
        | none => (none, .pod pod) := by
  rcases h : resolveOverride cache attributes.namespaceName with e | ov
  · rcases hpol with hpol | hpol <;>
      simp [ Admit, hres, hsub, hobj, hpol,
        applyProjectAnnotationOverride_eq, h]
  · rcases ov with _ | v
    · rcases hdef : cfg.activeDeadlineSecondsOverride with _ | d <;>
        rcases hpol with hpol | hpol <;>
          simp [ Admit, hres, hsub, hobj, hpol,
            applyProjectAnnotationOverride_eq, h, hdef]
    · rcases hpol with hpol | hpol <;>
        simp [ Admit, hres, hsub, hobj, hpol,
          applyProjectAnnotationOverride_eq, h]

theorem resolveOverride_parses (cache : ProjectCache)
    (namespaceName : String) (ns : NamespaceMeta)
    (anns : List (String × String)) (s : String) (v : Int)
    (hns : cache namespaceName = .ok ns)
    (hanns : ns.annotations = some anns)
    (hkey : anns.lookup ActiveDeadlineSecondsOverrideAnnotation = some s)
    (hparse : parseInt64 s = .ok v) :
    resolveOverride cache namespaceName = .ok (some v) := by
  simp [resolveOverride, hns, hanns, hkey, hparse]

theorem resolveOverride_no_override (cache : ProjectCache)
    (namespaceName : String) (ns : NamespaceMeta)
    (hns : cache namespaceName = .ok ns)
    (hnoov : ns.annotations = none ∨ ∃ anns, ns.annotations = some anns ∧
      anns.lookup ActiveDeadlineSecondsOverrideAnnotation = none) :
    resolveOverride cache namespaceName = .ok none := by
  rcases hnoov with hanns | ⟨anns, hanns, hkey⟩ <;>
    simp [resolveOverride, hns, hanns]
  simp [hkey]

theorem resolveOverride_parse_error (cache : ProjectCache)
    (namespaceName : String) (ns : NamespaceMeta)
    (anns : List (String × String)) (s e : String)
    (hns : cache namespaceName = .ok ns)
    (hanns : ns.annotations = some anns)
    (hkey : anns.lookup ActiveDeadlineSecondsOverrideAnnotation = some s)
    (hparse : parseInt64 s = .error e) :
    resolveOverride cache namespaceName =
      .error ("cannot parse the ActiveDeadlineSeconds override (" ++ s ++
        ") for project " ++ ns.name ++ ": " ++ e) := by
  simp [resolveOverride, hns, hanns, hkey, hparse]

theorem resolveOverride_lookup_error (cache : ProjectCache)
    (namespaceName : String) (e : String)
    (hns : cache namespaceName = .error e) :
    resolveOverride cache namespaceName =
      .error ("error looking up pod namespace: " ++ e) := by
  simp [resolveOverride, hns]

/-- C1: for a pod-resource request with restart policy `Never` or
`OnFailure` whose namespace carries an override annotation parsing as a
base-10 signed 64-bit integer, `Admit` admits the pod with
`ActiveDeadlineSeconds` set to the parsed override value — the
cluster-wide default in `cfg` (which may hold any different value) is not
applied. -/
theorem admit_applies_namespace_override (cache : ProjectCache)
    (cfg : RunOnceDurationConfig) (attributes : Attributes) (pod : Pod)
    (ns : NamespaceMeta) (anns : List (String × String)) (s : String)
    (v : Int)
    (hres : attributes.resource = "pods")
    (hsub : attributes.subresource = "")
    (hobj : attributes.object = .pod pod)
    (hpol : pod.spec.restartPolicy = .never ∨
      pod.spec.restartPolicy = .onFailure)
    (hns : cache attributes.namespaceName = .ok ns)
    (hanns : ns.annotations = some anns)
    (hkey : anns.lookup ActiveDeadlineSecondsOverrideAnnotation = some s)
    (hparse : parseInt64 s = .ok v) :
    Admit cache (some cfg) attributes =
      (none, .pod (setDeadline pod (some v))) := by
  rw [admit_pod_eq cache cfg attributes pod hres hsub hobj hpol,
    resolveOverride_parses cache attributes.namespaceName ns anns s v
      hns hanns hkey hparse]

/-- C1 witness: override `"120"` wins over a different configured default
`300` for an `OnFailure` pod. -/
theorem admit_applies_namespace_override_witness :
    Admit
        (fun _ => .ok ⟨"batch-ns",
          some [("openshift.io/active-deadline-seconds-override", "120")]⟩)
        (some ⟨some 300⟩)
        ⟨"pods", "", "batch-ns", .pod ⟨⟨.onFailure, none⟩⟩⟩ =
      (none, .pod ⟨⟨.onFailure, some 120⟩⟩) :=
  admit_applies_namespace_override
    (fun _ => .ok ⟨"batch-ns",
      some [("openshift.io/active-deadline-seconds-override", "120")]⟩)
    ⟨some 300⟩
    ⟨"pods", "", "batch-ns", .pod ⟨⟨.onFailure, none⟩⟩⟩
    ⟨⟨.onFailure, none⟩⟩
    ⟨"batch-ns",
      some [("openshift.io/active-deadline-seconds-override", "120")]⟩
    [("openshift.io/active-deadline-seconds-override", "120")]
    "120" 120 rfl rfl rfl (Or.inr rfl) rfl rfl rfl rfl

/-- C2: for a pod-resource request with restart policy `Never` or
`OnFailure` whose namespace annotation value fails 64-bit integer
parsing, `Admit` returns a forbidden error whose message contains the raw
annotation string and the namespace name, and the pod is unchanged. -/
theorem admit_rejects_malformed_override (cache : ProjectCache)
    (cfg : RunOnceDurationConfig) (attributes : Attributes) (pod : Pod)
    (ns : NamespaceMeta) (anns : List (String × String)) (s e : String)
    (hres : attributes.resource = "pods")
    (hsub : attributes.subresource = "")
    (hobj : attributes.object = .pod pod)
    (hpol : pod.spec.restartPolicy = .never ∨
      pod.spec.restartPolicy = .onFailure)
    (hns : cache attributes.namespaceName = .ok ns)
    (hanns : ns.annotations = some anns)
    (hkey : anns.lookup ActiveDeadlineSecondsOverrideAnnotation = some s)
    (hparse : parseInt64 s = .error e) :
    ∃ msg : String,
      Admit cache (some cfg) attributes =
        (some (.forbidden msg), .pod pod) ∧
      (∃ l r : String, msg = l ++ s ++ r) ∧
      (∃ l r : String, msg = l ++ ns.name ++ r) := by
  refine ⟨"cannot parse the ActiveDeadlineSeconds override (" ++ s ++
    ") for project " ++ ns.name ++ ": " ++ e, ?_, ?_, ?_⟩
  · rw [admit_pod_eq cache cfg attributes pod hres hsub hobj hpol,
      resolveOverride_parse_error cache attributes.namespaceName ns anns
        s e hns hanns hkey hparse]
  · exact ⟨"cannot parse the ActiveDeadlineSeconds override (",
      ") for project " ++ ns.name ++ ": " ++ e, by
        simp [String.append_assoc]⟩
  · exact ⟨"cannot parse the ActiveDeadlineSeconds override (" ++ s ++
      ") for project ", ": " ++ e, by simp [String.append_assoc]⟩

/-- C2 witness: annotation value `"abc"` in project `batch-ns` is
rejected with a message containing `"abc"` and `"batch-ns"`, and the
submitted deadline `600` survives. -/
theorem admit_rejects_malformed_override_witness :
    ∃ msg : String,
      Admit
          (fun _ => .ok ⟨"batch-ns",
            some [("openshift.io/active-deadline-seconds-override",
              "abc")]⟩)
          (some ⟨some 300⟩)
          ⟨"pods", "", "batch-ns", .pod ⟨⟨.never, some 600⟩⟩⟩ =
        (some (.forbidden msg), .pod ⟨⟨.never, some 600⟩⟩) ∧
      (∃ l r : String, msg = l ++ "abc" ++ r) ∧
      (∃ l r : String, msg = l ++ "batch-ns" ++ r) :=
  admit_rejects_malformed_override
    (fun _ => .ok ⟨"batch-ns",
      some [("openshift.io/active-deadline-seconds-override", "abc")]⟩)
    ⟨some 300⟩
    ⟨"pods", "", "batch-ns", .pod ⟨⟨.never, some 600⟩⟩⟩
    ⟨⟨.never, some 600⟩⟩
    ⟨"batch-ns",
      some [("openshift.io/active-deadline-seconds-override", "abc")]⟩
    [("openshift.io/active-deadline-seconds-override", "abc")]
    "abc" "strconv.ParseInt: parsing \"abc\": invalid syntax"
    rfl rfl rfl (Or.inl rfl) rfl rfl rfl rfl

/-- C3: for a pod-resource request with restart policy `Never` or
`OnFailure` whose namespace has no override annotation (or no annotations
at all), a configured cluster-wide default is written to the pod's
`ActiveDeadlineSeconds`, overwriting whatever deadline the pod already
carried. -/
theorem admit_applies_default (cache : ProjectCache)
    (cfg : RunOnceDurationConfig) (attributes : Attributes) (pod : Pod)
    (ns : NamespaceMeta) (d : Int)
    (hres : attributes.resource = "pods")
    (hsub : attributes.subresource = "")
    (hobj : attributes.object = .pod pod)
    (hpol : pod.spec.restartPolicy = .never ∨
      pod.spec.restartPolicy = .onFailure)
    (hns : cache attributes.namespaceName = .ok ns)
    (hnoov : ns.annotations = none ∨ ∃ anns, ns.annotations = some anns ∧
      anns.lookup ActiveDeadlineSecondsOverrideAnnotation = none)
    (hdef : cfg.activeDeadlineSecondsOverride = some d) :
    Admit cache (some cfg) attributes =
      (none, .pod (setDeadline pod (some d))) := by
  rw [admit_pod_eq cache cfg attributes pod hres hsub hobj hpol,
    resolveOverride_no_override cache attributes.namespaceName ns
      hns hnoov]
  simp [hdef]

/-- C3 witness: the spec's scenario — namespace `batch-ns` without the
annotation, restart policy `Never`, default `300`, submitter-set deadline
`600` — yields deadline `300`. -/
theorem admit_applies_default_witness :
    Admit (fun _ => .ok ⟨"batch-ns", none⟩) (some ⟨some 300⟩)
        ⟨"pods", "", "batch-ns", .pod ⟨⟨.never, some 600⟩⟩⟩ =
      (none, .pod ⟨⟨.never, some 300⟩⟩) :=
  admit_applies_default
    (fun _ => .ok ⟨"batch-ns", none⟩)
    ⟨some 300⟩
    ⟨"pods", "", "batch-ns", .pod ⟨⟨.never, some 600⟩⟩⟩
    ⟨⟨.never, some 600⟩⟩
    ⟨"batch-ns", none⟩
    300 rfl rfl rfl (Or.inl rfl) rfl (Or.inl rfl) rfl

/-- C5: for any pod with restart policy `Always`, the decision admits the
pod unchanged, for every cache, config and namespace state. -/
theorem admit_always_never_modifies (cache : ProjectCache)
    (config : Option RunOnceDurationConfig) (attributes : Attributes)
    (pod : Pod)
    (hobj : attributes.object = .pod pod)
    (hpol : pod.spec.restartPolicy = .always) :
    Admit cache config attributes = (none, .pod pod) := by
  cases config with
  | none => simp [ Admit, hobj]
  | some cfg =>
    by_cases hcond : attributes.resource ≠ "pods" ∨
      attributes.subresource.length > 0
    · simp [ Admit, hcond, hobj]
    · simp [ Admit, hcond, hobj, hpol]

/-- C5 witness: an `Always` pod with a submitter deadline `600` survives
untouched even with a default `300` configured and an override annotation
present. -/
theorem admit_always_never_modifies_witness :
    Admit
        (fun _ => .ok ⟨"batch-ns",
          some [("openshift.io/active-deadline-seconds-override", "120")]⟩)
        (some ⟨some 300⟩)
        ⟨"pods", "", "batch-ns", .pod ⟨⟨.always, some 600⟩⟩⟩ =
      (none, .pod ⟨⟨.always, some 600⟩⟩) :=
  admit_always_never_modifies
    (fun _ => .ok ⟨"batch-ns",
      some [("openshift.io/active-deadline-seconds-override", "120")]⟩)
    (some ⟨some 300⟩)
    ⟨"pods", "", "batch-ns", .pod ⟨⟨.always, some 600⟩⟩⟩
    ⟨⟨.always, some 600⟩⟩ rfl rfl

/-- C6: for a pod-resource request with restart policy `Never` or
`OnFailure`, if the namespace yields no override annotation and no
cluster-wide default is configured, the pod is admitted with its
submitted `ActiveDeadlineSeconds` untouched. -/
theorem admit_no_override_no_default (cache : ProjectCache)
    (cfg : RunOnceDurationConfig) (attributes : Attributes) (pod : Pod)
    (ns : NamespaceMeta)
    (hres : attributes.resource = "pods")
    (hsub : attributes.subresource = "")
    (hobj : attributes.object = .pod pod)
    (hpol : pod.spec.restartPolicy = .never ∨
      pod.spec.restartPolicy = .onFailure)
    (hns : cache attributes.namespaceName = .ok ns)
    (hnoov : ns.annotations = none ∨ ∃ anns, ns.annotations = some anns ∧
      anns.lookup ActiveDeadlineSecondsOverrideAnnotation = none)
    (hdef : cfg.activeDeadlineSecondsOverride = none) :
    Admit cache (some cfg) attributes = (none, .pod pod) := by
  rw [admit_pod_eq cache cfg attributes pod hres hsub hobj hpol,
    resolveOverride_no_override cache attributes.namespaceName ns
      hns hnoov]
  simp [hdef]

/-- C6 witness: annotations present but without the override key, no
default configured — the submitted deadline `600` is preserved. -/
theorem admit_no_override_no_default_witness :
    Admit
        (fun _ => .ok ⟨"batch-ns", some [("unrelated-key", "5")]⟩)
        (some ⟨none⟩)
        ⟨"pods", "", "batch-ns", .pod ⟨⟨.onFailure, some 600⟩⟩⟩ =
      (none, .pod ⟨⟨.onFailure, some 600⟩⟩) :=
  admit_no_override_no_default
    (fun _ => .ok ⟨"batch-ns", some [("unrelated-key", "5")]⟩)
    ⟨none⟩
    ⟨"pods", "", "batch-ns", .pod ⟨⟨.onFailure, some 600⟩⟩⟩
    ⟨⟨.onFailure, some 600⟩⟩
    ⟨"batch-ns", some [("unrelated-key", "5")]⟩
    rfl rfl rfl (Or.inr rfl) rfl
    (Or.inr ⟨[("unrelated-key", "5")], rfl, rfl⟩) rfl

/-- C7: when the namespace cache lookup fails, the resolver returns the
lookup error wrapped with "error looking up pod namespace", and the
decision rejects the request with that message, leaving the pod
unchanged. -/
theorem admit_rejects_lookup_failure (cache : ProjectCache)
    (cfg : RunOnceDurationConfig) (attributes : Attributes) (pod : Pod)
    (e : String)
    (hres : attributes.resource = "pods")
    (hsub : attributes.subresource = "")
    (hobj : attributes.object = .pod pod)
    (hpol : pod.spec.restartPolicy = .never ∨
      pod.spec.restartPolicy = .onFailure)
    (hns : cache attributes.namespaceName = .error e) :
    applyProjectAnnotationOverride cache attributes.namespaceName pod =
      .error ("error looking up pod namespace: " ++ e) ∧
    Admit cache (some cfg) attributes =
      (some (.forbidden ("error looking up pod namespace: " ++ e)),
        .pod pod) := by
  constructor
  · simp [applyProjectAnnotationOverride, hns]
  · rw [admit_pod_eq cache cfg attributes pod hres hsub hobj hpol,
      resolveOverride_lookup_error cache attributes.namespaceName e hns]

/-- C7 witness: a cache returning the error `"namespace does not exist"`
makes the decision reject the pod with the wrapped message. -/
theorem admit_rejects_lookup_failure_witness :
    applyProjectAnnotationOverride (fun _ => .error "namespace does not exist")
        "batch-ns" ⟨⟨.never, some 600⟩⟩ =
      .error ("error looking up pod namespace: " ++
        "namespace does not exist") ∧
    Admit (fun _ => .error "namespace does not exist") (some ⟨some 300⟩)
        ⟨"pods", "", "batch-ns", .pod ⟨⟨.never, some 600⟩⟩⟩ =
      (some (.forbidden ("error looking up pod namespace: " ++
        "namespace does not exist")), .pod ⟨⟨.never, some 600⟩⟩) :=
  admit_rejects_lookup_failure
    (fun _ => .error "namespace does not exist")
    ⟨some 300⟩
    ⟨"pods", "", "batch-ns", .pod ⟨⟨.never, some 600⟩⟩⟩
    ⟨⟨.never, some 600⟩⟩
    "namespace does not exist"
    rfl rfl rfl (Or.inl rfl) rfl

theorem length_pos_of_ne_empty (s : String) (h : s ≠ "") :
    0 < s.length := by
  rcases s with ⟨data⟩
  cases data with
  | nil => exact absurd rfl h
  | cons c cs => simp [String.length]

/-- C8: a request whose resource is not "pods", or that has a non-empty
subresource, or arriving when no plugin config is set, is admitted with
no error and no mutation, for every cache (the cache is never read). -/
theorem admit_not_applicable (cache : ProjectCache)
    (config : Option RunOnceDurationConfig) (attributes : Attributes)
    (h : config = none ∨ attributes.resource ≠ "pods" ∨
      attributes.subresource ≠ "") :
    Admit cache config attributes = (none, attributes.object) := by
  rcases h with h | h | h
  · simp [ Admit, h]
  · cases config with
    | none => simp [ Admit]
    | some cfg => simp [ Admit, h]
  · cases config with
    | none => simp [ Admit]
    | some cfg =>
      have hlen : attributes.subresource.length > 0 :=
        length_pos_of_ne_empty attributes.subresource h
      simp [ Admit, hlen]

/-- C8 witness: a "services" request, a pod request with subresource
"status", and a nil config each pass through unchanged. -/
theorem admit_not_applicable_witness :
    Admit (fun _ => .error "cache must not be read")
        (some ⟨some 300⟩)
        ⟨"services", "", "batch-ns", .pod ⟨⟨.never, some 600⟩⟩⟩ =
      (none, .pod ⟨⟨.never, some 600⟩⟩) ∧
    Admit (fun _ => .error "cache must not be read")
        (some ⟨some 300⟩)
        ⟨"pods", "status", "batch-ns", .pod ⟨⟨.never, some 600⟩⟩⟩ =
      (none, .pod ⟨⟨.never, some 600⟩⟩) ∧
    Admit (fun _ => .error "cache must not be read") none
        ⟨"pods", "", "batch-ns", .pod ⟨⟨.never, some 600⟩⟩⟩ =
      (none, .pod ⟨⟨.never, some 600⟩⟩) :=
  ⟨admit_not_applicable (fun _ => .error "cache must not be read")
      (some ⟨some 300⟩)
      ⟨"services", "", "batch-ns", .pod ⟨⟨.never, some 600⟩⟩⟩
      (Or.inr (Or.inl (by decide))),
    admit_not_applicable (fun _ => .error "cache must not be read")
      (some ⟨some 300⟩)
      ⟨"pods", "status", "batch-ns", .pod ⟨⟨.never, some 600⟩⟩⟩
      (Or.inr (Or.inr (by decide))),
    admit_not_applicable (fun _ => .error "cache must not be read") none
      ⟨"pods", "", "batch-ns", .pod ⟨⟨.never, some 600⟩⟩⟩
      (Or.inl rfl)⟩

/-- C10: any annotation value that parses as a base-10 signed 64-bit
integer — negative values included — is accepted by the resolver, which
writes the parsed value to the pod's deadline and reports
`(applied = true)` with no error: the code performs no non-negativity
check. -/
theorem resolver_accepts_any_parsed_value (cache : ProjectCache)
    (namespaceName : String) (pod : Pod) (ns : NamespaceMeta)
    (anns : List (String × String)) (s : String) (v : Int)
    (hns : cache namespaceName = .ok ns)
    (hanns : ns.annotations = some anns)
    (hkey : anns.lookup ActiveDeadlineSecondsOverrideAnnotation = some s)
    (hparse : parseInt64 s = .ok v) :
    applyProjectAnnotationOverride cache namespaceName pod =
      .ok (true, setDeadline pod (some v)) := by
  rw [applyProjectAnnotationOverride_eq,
    resolveOverride_parses cache namespaceName ns anns s v
      hns hanns hkey hparse]

/-- C10 witness: the negative override `"-5"` is accepted and written
verbatim. -/
theorem resolver_accepts_any_parsed_value_witness :
    applyProjectAnnotationOverride
        (fun _ => .ok ⟨"neg-ns",
          some [("openshift.io/active-deadline-seconds-override", "-5")]⟩)
        "neg-ns" ⟨⟨.never, none⟩⟩ =
      .ok (true, ⟨⟨.never, some (-5)⟩⟩) :=
  resolver_accepts_any_parsed_value
    (fun _ => .ok ⟨"neg-ns",
      some [("openshift.io/active-deadline-seconds-override", "-5")]⟩)
    "neg-ns" ⟨⟨.never, none⟩⟩
    ⟨"neg-ns",
      some [("openshift.io/active-deadline-seconds-override", "-5")]⟩
    [("openshift.io/active-deadline-seconds-override", "-5")]
    "-5" (-5) rfl rfl rfl rfl

/-- The decision wrote the namespace override: the resolver reported
`applied = true` having produced pod `p'`, and the outcome admits exactly
`p'` — nothing (in particular no default) is written on top. -/
def OverrideWrite (cache : ProjectCache) (attributes : Attributes)
    (pod : Pod) (outcome : Option AdmitError × AdmissionObject) : Prop :=
  ∃ p', applyProjectAnnotationOverride cache attributes.namespaceName pod =
    .ok (true, p') ∧ outcome = (none, .pod p')

/-- The decision wrote the cluster-wide default: the resolver reported no
override (returning the pod untouched) and the configured default was
written to the deadline. -/
def DefaultWrite (cache : ProjectCache) (cfg : RunOnceDurationConfig)
    (attributes : Attributes) (pod : Pod)
    (outcome : Option AdmitError × AdmissionObject) : Prop :=
  applyProjectAnnotationOverride cache attributes.namespaceName pod =
    .ok (false, pod) ∧
  ∃ d, cfg.activeDeadlineSecondsOverride = some d ∧
    outcome = (none, .pod (setDeadline pod (some d)))

/-- The decision wrote nothing: either no override was found and no
default is configured, or the resolver errored; the pod comes out as it
went in. -/
def NoWrite (cache : ProjectCache) (cfg : RunOnceDurationConfig)
    (attributes : Attributes) (pod : Pod)
    (outcome : Option AdmitError × AdmissionObject) : Prop :=
  ((applyProjectAnnotationOverride cache attributes.namespaceName pod =
      .ok (false, pod) ∧ cfg.activeDeadlineSecondsOverride = none) ∨
    ∃ e, applyProjectAnnotationOverride cache attributes.namespaceName pod =
      .error e) ∧
  outcome.2 = .pod pod

/-- One of the three outcomes holds and no two hold together. -/
def ExactlyOneOutcome (cache : ProjectCache)
    (cfg : RunOnceDurationConfig) (attributes : Attributes) (pod : Pod)
    (outcome : Option AdmitError × AdmissionObject) : Prop :=
  (OverrideWrite cache attributes pod outcome ∨
    DefaultWrite cache cfg attributes pod outcome ∨
    NoWrite cache cfg attributes pod outcome) ∧
  ¬(OverrideWrite cache attributes pod outcome ∧
    DefaultWrite cache cfg attributes pod outcome) ∧
  ¬(OverrideWrite cache attributes pod outcome ∧
    NoWrite cache cfg attributes pod outcome) ∧
  ¬(DefaultWrite cache cfg attributes pod outcome ∧
    NoWrite cache cfg attributes pod outcome)

theorem overrideWrite_not_defaultWrite (cache : ProjectCache)
    (cfg : RunOnceDurationConfig) (attributes : Attributes) (pod : Pod)
    (outcome : Option AdmitError × AdmissionObject) :
    ¬(OverrideWrite cache attributes pod outcome ∧
      DefaultWrite cache cfg attributes pod outcome) := by
  rintro ⟨⟨p', hp, _⟩, hd, _⟩
  rw [hp] at hd
  simp at hd

theorem overrideWrite_not_noWrite (cache : ProjectCache)
    (cfg : RunOnceDurationConfig) (attributes : Attributes) (pod : Pod)
    (outcome : Option AdmitError × AdmissionObject) :
    ¬(OverrideWrite cache attributes pod outcome ∧
      NoWrite cache cfg attributes pod outcome) := by
  rintro ⟨⟨p', hp, _⟩, hnw, _⟩
  rcases hnw with ⟨hf, _⟩ | ⟨e, he⟩
  · rw [hp] at hf
    simp at hf
  · rw [hp] at he
    simp at he

theorem defaultWrite_not_noWrite (cache : ProjectCache)
    (cfg : RunOnceDurationConfig) (attributes : Attributes) (pod : Pod)
    (outcome : Option AdmitError × AdmissionObject) :
    ¬(DefaultWrite cache cfg attributes pod outcome ∧
      NoWrite cache cfg attributes pod outcome) := by
  rintro ⟨⟨hf, d, hd, _⟩, hnw, _⟩
  rcases hnw with ⟨_, hnone⟩ | ⟨e, he⟩
  · rw [hd] at hnone
    simp at hnone
  · rw [hf] at he
    simp at he

/-- C4: every admission decision on an applicable run-once pod request
realises exactly one of {override written, default written, no write}:
the three cases are exhaustive and pairwise exclusive, so in particular
an override write and a default write never happen together. -/
theorem admit_exactly_one_write (cache : ProjectCache)
    (cfg : RunOnceDurationConfig) (attributes : Attributes) (pod : Pod)
    (hres : attributes.resource = "pods")
    (hsub : attributes.subresource = "")
    (hobj : attributes.object = .pod pod)
    (hpol : pod.spec.restartPolicy = .never ∨
      pod.spec.restartPolicy = .onFailure) :
    ExactlyOneOutcome cache cfg attributes pod
      ( Admit cache (some cfg) attributes) := by
  refine ⟨?_, overrideWrite_not_defaultWrite cache cfg attributes pod _,
    overrideWrite_not_noWrite cache cfg attributes pod _,
    defaultWrite_not_noWrite cache cfg attributes pod _⟩
  have hadm := admit_pod_eq cache cfg attributes pod hres hsub hobj hpol
  rcases h : resolveOverride cache attributes.namespaceName with e | ov
  · have hap : applyProjectAnnotationOverride cache
        attributes.namespaceName pod = .error e := by
      rw [applyProjectAnnotationOverride_eq, h]
    rw [h] at hadm
    exact Or.inr (Or.inr ⟨Or.inr ⟨e, hap⟩, by rw [hadm]⟩)
  · rcases ov with _ | v
    · have hap : applyProjectAnnotationOverride cache
          attributes.namespaceName pod = .ok (false, pod) := by
        rw [applyProjectAnnotationOverride_eq, h]
      rw [h] at hadm
      rcases hdef : cfg.activeDeadlineSecondsOverride with _ | d
      · refine Or.inr (Or.inr ⟨Or.inl ⟨hap, hdef⟩, ?_⟩)
        rw [hadm]
        simp [hdef]
      · refine Or.inr (Or.inl ⟨hap, d, hdef, ?_⟩)
        rw [hadm]
        simp [hdef]
    · have hap : applyProjectAnnotationOverride cache
          attributes.namespaceName pod =
          .ok (true, setDeadline pod (some v)) := by
        rw [applyProjectAnnotationOverride_eq, h]
      rw [h] at hadm
      exact Or.inl ⟨setDeadline pod (some v), hap, by rw [hadm]⟩

/-- C4 witness: the exactly-one-outcome invariant at a concrete request
whose namespace override `"120"` and configured default `300` are both
in play. -/
theorem admit_exactly_one_write_witness :
    ExactlyOneOutcome
      (fun _ => .ok ⟨"batch-ns",
        some [("openshift.io/active-deadline-seconds-override", "120")]⟩)
      ⟨some 300⟩
      ⟨"pods", "", "batch-ns", .pod ⟨⟨.onFailure, none⟩⟩⟩
      ⟨⟨.onFailure, none⟩⟩
      ( Admit
        (fun _ => .ok ⟨"batch-ns",
          some [("openshift.io/active-deadline-seconds-override", "120")]⟩)
        (some ⟨some 300⟩)
        ⟨"pods", "", "batch-ns", .pod ⟨⟨.onFailure, none⟩⟩⟩) :=
  admit_exactly_one_write
    (fun _ => .ok ⟨"batch-ns",
      some [("openshift.io/active-deadline-seconds-override", "120")]⟩)
    ⟨some 300⟩
    ⟨"pods", "", "batch-ns", .pod ⟨⟨.onFailure, none⟩⟩⟩
    ⟨⟨.onFailure, none⟩⟩
    rfl rfl rfl (Or.inr rfl)

/-- C9: the decision is idempotent for a stable cache snapshot: running
it again on the object produced by a first run, with the same config and
cache, returns the same error and the same object.  (Determinism is
inherent: the embedding is a function of its inputs.) -/
theorem admit_idempotent (cache : ProjectCache)
    (config : Option RunOnceDurationConfig) (attributes : Attributes) :
    Admit cache config
        { attributes with object := ( Admit cache config attributes).2 } =
      Admit cache config attributes := by
  cases config with
  | none => rfl
  | some cfg =>
    by_cases hcond : attributes.resource ≠ "pods" ∨
      attributes.subresource.length > 0
    · simp [ Admit, hcond]
    · cases hobj : attributes.object with
      | other d => simp [ Admit, hcond, hobj]
      | pod pod =>
        cases hpol : pod.spec.restartPolicy with
        | always => simp [ Admit, hcond, hobj, hpol]
        | onFailure =>
          rcases h : resolveOverride cache attributes.namespaceName
            with e | ov
          · simp [ Admit, hcond, hobj, hpol,
              applyProjectAnnotationOverride_eq, h]
          · rcases ov with _ | v
            · rcases hdef : cfg.activeDeadlineSecondsOverride with _ | d <;>
                simp [ Admit, hcond, hobj, hpol,
                  applyProjectAnnotationOverride_eq, h, hdef, setDeadline]
            · simp [ Admit, hcond, hobj, hpol,
                applyProjectAnnotationOverride_eq, h, setDeadline]
        | never =>
          rcases h : resolveOverride cache attributes.namespaceName
            with e | ov
          · simp [ Admit, hcond, hobj, hpol,
              applyProjectAnnotationOverride_eq, h]
          · rcases ov with _ | v
            · rcases hdef : cfg.activeDeadlineSecondsOverride with _ | d <;>
                simp [ Admit, hcond, hobj, hpol,
                  applyProjectAnnotationOverride_eq, h, hdef, setDeadline]
            · simp [ Admit, hcond, hobj, hpol,
                applyProjectAnnotationOverride_eq, h, setDeadline]

end RunOnceDuration
